import Mathlib

/-!
Shallow embedding of `djangae/contrib/googleauth/models.py` (user manager,
anonymous-user sentinel, OAuth session record) together with the
`email_lower` computed field declared by the `gauth_sql` initial migration.

Python conventions used throughout the embedding:
  * a Python `dict` of keyword arguments is modelled by a structure whose
    fields are `Option`-valued (a missing key is `none`);
  * Python exceptions become the `error` branch of `Except PyError _`,
    carrying the exception class and message; a function that has raised has
    performed no write, so the database list is only returned on `ok`;
  * the persisted store is an explicit `List UserRec`; `user.save()` appends
    the record to the store;
  * Python `None` results of a method typed "bool or None" are `Option Bool`.
-/

namespace Djangae

/-- Python exception values raised by the embedded code: the class tag and
the message string. -/
inductive PyError where
  | valueError (msg : String)
  | typeError (msg : String)
deriving DecidableEq, Repr

/-- Characters removed by Python `str.strip()` (the ASCII whitespace set;
the inputs in this development are ASCII). -/
def pyIsSpace (c : Char) : Bool :=
  c = ' ' || c = '\t' || c = '\n' || c = '\r' || c = '\x0b' || c = '\x0c'

/-- Python `str.strip()`: drop leading and trailing whitespace. -/
def py_strip (s : String) : String :=
  ⟨((s.data.dropWhile pyIsSpace).reverse.dropWhile pyIsSpace).reverse⟩

/-- Python `str.lower()` (ASCII case mapping suffices for the inputs of this
development). -/
def py_lower (s : String) : String :=
  ⟨s.data.map Char.toLower⟩

/-- Split a character list at the LAST occurrence of `c` (the behaviour of
Python `s.rsplit(c, 1)` when it yields two parts); `none` when `c` does not
occur (the `ValueError` branch of the unpacking in `normalize_email`). -/
def rsplitLastAux (c : Char) : List Char → Option (List Char × List Char)
  | [] => none
  | x :: xs =>
    match rsplitLastAux c xs with
    | some (a, b) => some (x :: a, b)
    | none => if x = c then some ([], xs) else none

/-- `rsplitLast s c`: split `s` at the last occurrence of `c`. -/
def rsplitLast (s : String) (c : Char) : Option (String × String) :=
  match rsplitLastAux c s.data with
  | some (a, b) => some (⟨a⟩, ⟨b⟩)
  | none => none

/-- Modelled from the spec: `BaseUserManager.normalize_email` is provided by
the host web framework (not under `src/`); the spec says creation
"normalizes email (lower-cases the domain portion)", splitting at the last
`@`: the local part is preserved and only the domain is lower-cased; a
string with no `@` is returned unchanged. -/
def normalize_email (email : String) : String :=
  match rsplitLast (py_strip email) '@' with
  | some (email_name, domain_part) => email_name ++ "@" ++ py_lower domain_part
  | none => email

/-- Modelled from the spec: `AbstractBaseUser.normalize_username` is provided
by the host web framework (not under `src/`); it applies unicode NFKC
normalization, which is the identity on the ASCII usernames appearing in
this development, so it is modelled as the identity. -/
def normalize_username (username : String) : String :=
  username

/-- Modelled from the spec: `set_password` (host framework) stores a hash of
the raw password; the claims under verification never inspect the hash, so
it is modelled as an injective tagging of the raw password. -/
def set_password (raw_password : String) : String :=
  "hashed$" ++ raw_password

/-- The two keyword arguments of `**extra_fields` that the manager code
inspects (`is_staff`, `is_superuser`); a missing key is `none`. -/
structure ExtraFields where
  is_staff : Option Bool
  is_superuser : Option Bool
deriving DecidableEq, Repr

/-- `dict.setdefault(key, default)` followed by reading the key: the stored
value when the key was present, otherwise the default (which is stored). -/
def setdefault (v : Option Bool) (default : Bool) : Option Bool :=
  some (v.getD default)

/-- The fields of the persisted `User` record that the embedded manager code
writes (`username`, `email`, hashed password, privilege flags). -/
structure UserRec where
  username : String
  email : String
  password : String
  is_staff : Bool
  is_superuser : Bool
deriving DecidableEq, Repr

/-- `UserManager._create_user` (models.py lines 23-34): raises `ValueError`
on an empty username BEFORE any write; otherwise normalizes email and
username, builds the record (model field defaults: both flags `False` when
the keyword is absent), hashes the password and saves.  Returns the created
record and the store with the record appended; on `error` no write happened. -/
def _create_user (db : List UserRec) (username email password : String)
    (extra_fields : ExtraFields) : Except PyError (UserRec × List UserRec) :=
  if username = "" then
    .error (.valueError "The given username must be set")
  else
    let user : UserRec :=
      { username := normalize_username username
        email := normalize_email email
        password := set_password password
        is_staff := extra_fields.is_staff.getD false
        is_superuser := extra_fields.is_superuser.getD false }
    .ok (user, db ++ [user])

/-- `UserManager.create_user` (models.py lines 36-39): defaults `is_staff`
and `is_superuser` to `False` when absent, then delegates to `_create_user`. -/
def create_user (db : List UserRec) (username email password : String)
    (extra_fields : ExtraFields) : Except PyError (UserRec × List UserRec) :=
  _create_user db username email password
    ⟨setdefault extra_fields.is_staff false,
     setdefault extra_fields.is_superuser false⟩

/-- `UserManager.create_superuser` (models.py lines 41-50): defaults both
flags to `True` when absent, raises `ValueError` when either resolves to a
value other than `True` (i.e. was explicitly passed `False`), and only then
delegates to `_create_user`. -/
def create_superuser (db : List UserRec) (username email password : String)
    (extra_fields : ExtraFields) : Except PyError (UserRec × List UserRec) :=
  if setdefault extra_fields.is_staff true ≠ some true then
    .error (.valueError "Superuser must have is_staff=True.")
  else if setdefault extra_fields.is_superuser true ≠ some true then
    .error (.valueError "Superuser must have is_superuser=True.")
  else
    _create_user db username email password
      ⟨setdefault extra_fields.is_staff true,
       setdefault extra_fields.is_superuser true⟩

/-- An authentication backend as `with_perm` observes it: whether it has a
`with_perm` attribute, and the query that attribute computes from
`(perm, is_active, include_superusers, obj)` when present. -/
structure Backend where
  has_with_perm : Bool
  with_perm_fn : String → Bool → Bool → Option Nat → List UserRec

/-- The auth configuration `with_perm` consults: the configured backend list
(`_get_backends`) and the dynamic import of a dotted path (`load_backend`). -/
structure AuthConfig where
  backends : List Backend
  load_backend : String → Backend

/-- The `backend` argument of `with_perm`: `None`, a string path, or any
other Python value (carrying its `repr` for the error message). -/
inductive BackendArg where
  | none
  | str (path : String)
  | other (reprStr : String)

/-- Tail of `UserManager.with_perm` (models.py lines 69-76): delegate to the
backend when it has a `with_perm` attribute, otherwise return the empty
queryset `self.none()` (modelled as `[]`). -/
def dispatch_with_perm (b : Backend) (perm : String)
    (is_active include_superusers : Bool) (obj : Option Nat) : List UserRec :=
  if b.has_with_perm then b.with_perm_fn perm is_active include_superusers obj
  else []

/-- `UserManager.with_perm` (models.py lines 52-76): with `backend=None`,
use the single configured backend or raise `ValueError`; with a non-string
backend raise `TypeError` (before any backend is loaded or consulted); with
a string, load it; finally dispatch. -/
def with_perm (cfg : AuthConfig) (perm : String)
    (is_active include_superusers : Bool) (backend : BackendArg)
    (obj : Option Nat) : Except PyError (List UserRec) :=
  match backend with
  | .none =>
    match cfg.backends with
    | [b] => .ok (dispatch_with_perm b perm is_active include_superusers obj)
    | _ => .error (.valueError
        "You have multiple authentication backends configured and therefore must provide the backend argument.")
  | .other r => .error (.typeError
      ("backend must be a dotted import path string (got " ++ r ++ ")."))
  | .str path =>
    .ok (dispatch_with_perm (cfg.load_backend path) perm is_active
      include_superusers obj)

/-- `AnonymousUser` (models.py lines 79-143).  Python instances are distinct
objects that the class makes behaviourally interchangeable; the `objectId`
field models object identity so that "two instances" is expressible. -/
structure AnonymousUser where
  objectId : Nat
deriving DecidableEq, Repr

namespace AnonymousUser

/-- `AnonymousUser.username` class attribute: the empty string. -/
def username (_ : AnonymousUser) : String := ""

/-- `AnonymousUser.__eq__`: `isinstance(other, self.__class__)` — true for
every other `AnonymousUser` (the only inhabitants of the type). -/
def eq (_self _other : AnonymousUser) : Bool := true

/-- `AnonymousUser.__hash__`: instances always return the same hash value. -/
def hash (_ : AnonymousUser) : Nat := 1

/-- `AnonymousUser.__int__`: always raises `TypeError`. -/
def toInt (_ : AnonymousUser) : Except PyError Int :=
  .error (.typeError
    "Cannot cast AnonymousUser to int. Are you trying to use it in place of User?")

/-- `AnonymousUser.has_perm`: always `False`. -/
def has_perm (_ : AnonymousUser) (_perm : String) (_obj : Option Nat) : Bool :=
  false

/-- `AnonymousUser.has_perms`: `all(self.has_perm(perm, obj) for perm in
perm_list)`. -/
def has_perms (self : AnonymousUser) (perm_list : List String)
    (obj : Option Nat) : Bool :=
  perm_list.all (fun perm => self.has_perm perm obj)

/-- `AnonymousUser.has_module_perms`: always `False`. -/
def has_module_perms (_ : AnonymousUser) (_module : String) : Bool := false

/-- `AnonymousUser.is_anonymous` property: `True`. -/
def is_anonymous (_ : AnonymousUser) : Bool := true

/-- `AnonymousUser.is_authenticated` property: `False`. -/
def is_authenticated (_ : AnonymousUser) : Bool := false

end AnonymousUser

/-- The token fields of `OAuthUserSession` (models.py lines 259-277) that
`is_valid` could inspect. -/
structure OAuthUserSession where
  authorization_code : String
  access_token : String
  refresh_token : String
  id_token : String
  token_type : String
  expires_at : String
  expires_in : String
  scopes : List String
deriving DecidableEq, Repr

/-- `OAuthUserSession.is_valid` (models.py lines 273-274): the body is
`pass`, so every call returns Python `None` — modelled as `Option Bool` with
value `none` (it never produces a boolean). -/
def OAuthUserSession.is_valid (_ : OAuthUserSession) : Option Bool :=
  none

/-- Modelled from the spec: the computed-field function
`djangae.contrib.gauth.models._get_email_lower` is not under `src/` (only
its declaration in the `gauth_sql` migration is); per the spec's example the
stored `email_lower` is the fully lower-cased stored email. -/
def _get_email_lower (email : String) : String :=
  py_lower email

/-- Concrete fixture: a backend without a `with_perm` attribute. -/
def backend_plain : Backend :=
  { has_with_perm := false, with_perm_fn := fun _ _ _ _ => [] }

/-- Concrete fixture: a configuration with exactly one backend. -/
def cfg_one : AuthConfig :=
  { backends := [backend_plain], load_backend := fun _ => backend_plain }

/-- Concrete fixture: a configuration with zero backends. -/
def cfg_zero : AuthConfig :=
  { backends := [], load_backend := fun _ => backend_plain }

/-- Concrete fixture: an OAuth session whose `expires_at` lies in the past
(relative to any plausible current time) and whose token fields are all
non-empty. -/
def expiredSession : OAuthUserSession :=
  { authorization_code := "4/0AX4XfWh"
    access_token := "ya29.a0ARrdaM8"
    refresh_token := "1//0gq9yPV"
    id_token := "eyJhbGciOiJSUzI1NiJ9"
    token_type := "Bearer"
    expires_at := "2000-01-01 00:00:00"
    expires_in := "3600"
    scopes := ["openid", "email"] }

/-- Concrete fixture: the record persisted for `username="alice"`,
`email="Alice@EXAMPLE.com"`, password `"pw"`, no extra flags. -/
def aliceRec : UserRec :=
  { username := "alice", email := "Alice@example.com"
    password := set_password "pw", is_staff := false, is_superuser := false }

/-- Concrete fixture: the record persisted by `create_superuser` for
`username="alice"` with no explicit flags. -/
def aliceSuperRec : UserRec :=
  { username := "alice", email := "alice@example.com"
    password := set_password "pw", is_staff := true, is_superuser := true }

/-- Concrete fixture: the record persisted by `create_user` for
`username="bob"` with both flags explicitly `True`. -/
def bobRec : UserRec :=
  { username := "bob", email := "bob@example.com"
    password := set_password "pw", is_staff := true, is_superuser := true }

/-- Helper: what an `ok` result of `_create_user` pins down — the record is
built from the normalized inputs with the flag defaults, and the store grew
by exactly that record. -/
theorem _create_user_ok_elim (db : List UserRec) (username email password : String)
    (extra_fields : ExtraFields) (u : UserRec) (db' : List UserRec)
    (h : _create_user db username email password extra_fields = .ok (u, db')) :
    u = { username := normalize_username username
          email := normalize_email email
          password := set_password password
          is_staff := extra_fields.is_staff.getD false
          is_superuser := extra_fields.is_superuser.getD false }
    ∧ db' = db ++ [u] := by
  unfold _create_user at h
  split at h
  · exact absurd h (by simp)
  · rw [Except.ok.injEq, Prod.mk.injEq] at h
    obtain ⟨hu, hdb⟩ := h
    exact ⟨hu.symm, by rw [← hdb, hu]⟩

/-- C3: the claim states that `is_valid()` on an expired session with
non-empty token fields returns the boolean `False` and in general returns a
boolean.  The source body of `OAuthUserSession.is_valid` is `pass`: at the
expired-session fixture the call returns Python `None` (here `none`), not a
boolean, and in particular not `False`. -/
theorem c3_is_valid_returns_none :
    expiredSession.is_valid = none ∧ expiredSession.is_valid ≠ some false :=
  ⟨rfl, by decide⟩

/-- C4 counterexample: the claim says `has_perms` resolves false for EVERY
list of permission strings, but on the empty list `has_perms` is
`all([])`, which is `True`. -/
theorem c4_counterexample_empty_list :
    (AnonymousUser.mk 0).has_perms [] none = true :=
  rfl

/-- C4 (amended): for every `AnonymousUser`, `has_perm` and
`has_module_perms` always resolve false, and `has_perms` resolves false for
every NON-EMPTY list of permission strings (on the empty list it is
vacuously true). -/
theorem c4_anonymous_has_no_perms (a : AnonymousUser) (perm : String)
    (perm_list : List String) (m : String) (obj : Option Nat) :
    a.has_perm perm obj = false
    ∧ (perm_list ≠ [] → a.has_perms perm_list obj = false)
    ∧ a.has_module_perms m = false := by
  refine ⟨rfl, ?_, rfl⟩
  intro h
  cases perm_list with
  | nil => exact absurd rfl h
  | cons p ps => rfl

/-- C4 witness: the amended theorem applied at a singleton permission list. -/
theorem c4_anonymous_has_no_perms_witness :
    (AnonymousUser.mk 0).has_perms ["auth.change_user"] none = false :=
  (c4_anonymous_has_no_perms (AnonymousUser.mk 0) "auth.change_user"
    ["auth.change_user"] "auth" none).2.1 (by decide)

/-- C5: creating a user with `username="alice"`, `email="Alice@EXAMPLE.com"`
persists exactly one record whose stored email is `"Alice@example.com"`
(local part preserved, domain lower-cased) and whose computed `email_lower`
is `"alice@example.com"`. -/
theorem c5_email_domain_lowercased :
    create_user [] "alice" "Alice@EXAMPLE.com" "pw" ⟨none, none⟩ =
      .ok (aliceRec, [aliceRec])
    ∧ aliceRec.email = "Alice@example.com"
    ∧ _get_email_lower aliceRec.email = "alice@example.com" :=
  ⟨rfl, rfl, by decide⟩

/-- C6: for every store, email, password and extra fields, `create_user`
with an empty username raises `ValueError` (and `create_superuser` likewise
raises a `ValueError`-kind error — either the flag check or the username
check fires first); in both cases the result is an `error`, so no record
was persisted. -/
theorem c6_empty_username_rejected (db : List UserRec)
    (email password : String) (extra_fields : ExtraFields) :
    create_user db "" email password extra_fields =
      .error (.valueError "The given username must be set")
    ∧ ∃ msg, create_superuser db "" email password extra_fields =
        .error (.valueError msg) := by
  constructor
  · rfl
  · unfold create_superuser
    split
    · exact ⟨_, rfl⟩
    · split
      · exact ⟨_, rfl⟩
      · exact ⟨_, rfl⟩

/-- C7: for every configuration, permission and filter arguments, calling
`with_perm` with a backend argument that is neither `None` nor a string
raises `TypeError`; the result does not depend on the configuration, so no
backend is loaded or consulted. -/
theorem c7_nonstring_backend_typeerror (cfg : AuthConfig) (perm : String)
    (is_active include_superusers : Bool) (r : String) (obj : Option Nat) :
    with_perm cfg perm is_active include_superusers (.other r) obj =
      .error (.typeError
        ("backend must be a dotted import path string (got " ++ r ++ ").")) :=
  rfl

/-- C9: any two `AnonymousUser` instances are equal under `__eq__`, share
the same `__hash__` value, and `__int__` always raises `TypeError`. -/
theorem c9_anonymous_interchangeable (a b : AnonymousUser) :
    AnonymousUser.eq a b = true
    ∧ AnonymousUser.hash a = AnonymousUser.hash b
    ∧ ∃ msg, AnonymousUser.toInt a = .error (.typeError msg) :=
  ⟨rfl, rfl, ⟨_, rfl⟩⟩

/-- C1: whenever `create_superuser` persists a record, that record has
`is_staff = is_superuser = true` and the store grew by exactly that record;
and whenever the caller explicitly passed `is_staff=False` or
`is_superuser=False`, the call raises `ValueError` (an `error` result — no
record persisted). -/
theorem c1_create_superuser_flags (db : List UserRec)
    (username email password : String) (extra_fields : ExtraFields) :
    (∀ u db', create_superuser db username email password extra_fields =
        .ok (u, db') →
      u.is_staff = true ∧ u.is_superuser = true ∧ db' = db ++ [u])
    ∧ ((extra_fields.is_staff = some false ∨
        extra_fields.is_superuser = some false) →
      ∃ msg, create_superuser db username email password extra_fields =
        .error (.valueError msg)) := by
  obtain ⟨st, su⟩ := extra_fields
  constructor
  · intro u db' h
    unfold create_superuser at h
    split at h
    · exact absurd h (by simp)
    · split at h
      · exact absurd h (by simp)
      · rename_i h1 h2
        rw [not_not] at h1 h2
        obtain ⟨hu, hdb⟩ := _create_user_ok_elim _ _ _ _ _ _ _ h
        subst hu
        refine ⟨?_, ?_, hdb⟩
        · simpa using congrArg (fun o => o.getD false) h1
        · simpa using congrArg (fun o => o.getD false) h2
  · rintro (hst | hsu)
    · subst hst
      exact ⟨"Superuser must have is_staff=True.",
        by simp [create_superuser, setdefault]⟩
    · subst hsu
      cases hgd : st.getD true with
      | false =>
        exact ⟨"Superuser must have is_staff=True.",
          by simp [create_superuser, setdefault, hgd]⟩
      | true =>
        exact ⟨"Superuser must have is_superuser=True.",
          by simp [create_superuser, setdefault, hgd]⟩

/-- C1 witness: with no explicit flags `create_superuser` persists a record
with both flags true; with an explicit `is_staff=False` it raises
`ValueError`. -/
theorem c1_create_superuser_flags_witness :
    (aliceSuperRec.is_staff = true ∧ aliceSuperRec.is_superuser = true
      ∧ [aliceSuperRec] = [] ++ [aliceSuperRec])
    ∧ ∃ msg, create_superuser ([] : List UserRec) "alice" "alice@example.com"
        "pw" ⟨some false, none⟩ = .error (.valueError msg) :=
  ⟨(c1_create_superuser_flags [] "alice" "alice@example.com" "pw"
      ⟨none, none⟩).1 aliceSuperRec [aliceSuperRec] rfl,
   (c1_create_superuser_flags [] "alice" "alice@example.com" "pw"
      ⟨some false, none⟩).2 (Or.inl rfl)⟩

/-- C2: calling `with_perm` with `backend=None` dispatches to the single
configured backend when there is exactly one, without error; with zero or
two-or-more configured backends it raises the configuration `ValueError`. -/
theorem c2_backend_selection (cfg : AuthConfig) (perm : String)
    (is_active include_superusers : Bool) (obj : Option Nat) :
    (∀ b, cfg.backends = [b] →
      with_perm cfg perm is_active include_superusers .none obj =
        .ok (dispatch_with_perm b perm is_active include_superusers obj))
    ∧ (cfg.backends.length ≠ 1 →
      ∃ msg, with_perm cfg perm is_active include_superusers .none obj =
        .error (.valueError msg)) := by
  obtain ⟨bs, lb⟩ := cfg
  constructor
  · rintro b rfl
    rfl
  · intro hlen
    rcases bs with _ | ⟨b1, _ | ⟨b2, rest⟩⟩
    · exact ⟨_, rfl⟩
    · exact absurd rfl hlen
    · exact ⟨_, rfl⟩

/-- C2 witness: the theorem applied to a one-backend configuration (ok
result) and to a zero-backend configuration (configuration error). -/
theorem c2_backend_selection_witness :
    with_perm cfg_one "auth.change_user" true true .none none =
      .ok (dispatch_with_perm backend_plain "auth.change_user" true true none)
    ∧ ∃ msg, with_perm cfg_zero "auth.change_user" true true .none none =
        .error (.valueError msg) :=
  ⟨(c2_backend_selection cfg_one "auth.change_user" true true none).1
      backend_plain rfl,
   (c2_backend_selection cfg_zero "auth.change_user" true true none).2
      (by decide)⟩

/-- C8: when the selected backend has no `with_perm` attribute — whether it
was named by a string path or chosen as the single configured backend —
`with_perm` returns the empty result set without raising. -/
theorem c8_backend_without_lookup (cfg : AuthConfig) (path perm : String)
    (is_active include_superusers : Bool) (obj : Option Nat) (b : Backend) :
    ((cfg.load_backend path).has_with_perm = false →
      with_perm cfg perm is_active include_superusers (.str path) obj =
        .ok [])
    ∧ (cfg.backends = [b] → b.has_with_perm = false →
      with_perm cfg perm is_active include_superusers .none obj = .ok []) := by
  obtain ⟨bs, lb⟩ := cfg
  constructor
  · intro h
    simp only [with_perm, dispatch_with_perm] at h ⊢
    rw [h]
    simp
  · rintro rfl h
    simp only [with_perm, dispatch_with_perm]
    rw [h]
    simp

/-- C8 witness: both dispatch paths applied to the fixture backend that
lacks `with_perm`. -/
theorem c8_backend_without_lookup_witness :
    with_perm cfg_one "auth.change_user" true true (.str "app.Backend") none =
      .ok []
    ∧ with_perm cfg_one "auth.change_user" true true .none none = .ok [] :=
  ⟨(c8_backend_without_lookup cfg_one "app.Backend" "auth.change_user"
      true true none backend_plain).1 rfl,
   (c8_backend_without_lookup cfg_one "app.Backend" "auth.change_user"
      true true none backend_plain).2 rfl rfl⟩

/-- C10: `create_user` with explicitly supplied `is_staff`/`is_superuser`
values persists exactly the record carrying those values (it neither rejects
nor overrides them), for every non-empty username. -/
theorem c10_create_user_explicit_flags (db : List UserRec)
    (username email password : String) (st su : Bool) (h : username ≠ "") :
    create_user db username email password ⟨some st, some su⟩ =
      .ok ({ username := normalize_username username
             email := normalize_email email
             password := set_password password
             is_staff := st, is_superuser := su },
           db ++ [{ username := normalize_username username
                    email := normalize_email email
                    password := set_password password
                    is_staff := st, is_superuser := su }]) := by
  simp [create_user, _create_user, setdefault, h]

/-- C10 witness: explicit `is_staff=True, is_superuser=True` through
`create_user` yields a persisted record with both flags true. -/
theorem c10_create_user_explicit_flags_witness :
    create_user [] "bob" "bob@example.com" "pw" ⟨some true, some true⟩ =
      .ok (bobRec, [bobRec]) :=
  c10_create_user_explicit_flags [] "bob" "bob@example.com" "pw" true true
    (by decide)

end Djangae

